import Mathlib

/-!
Verification development for the `mapio_display` repository.

The repository drives an e-paper panel over SPI (`mapio_display/epd/epd.py`),
status LEDs through sysfs (`mapio_display/leds/leds.py`), and runs three
concurrent tasks — screen refresh, LED refresh, and GPIO button handling —
sharing mutable state (`mapio_display/app/app.py`).

The shallow embedding below translates the relevant code:
* each EPD driver method is rendered as the list of bus-level actions it
  performs (commands, data bytes, reset pulses, busy waits), with Python
  list indexing modelled as a fallible operation;
* the panel's abstract state (Uninitialized / Idle / Busy / Sleeping) is
  tracked by folding a transition function over the action trace;
* one iteration of each task loop body becomes a pure step function on an
  explicit state record, returning the mutated state together with the
  uncaught Python exception, if any, that escapes the loop body.
-/

namespace mapio

/-- Python exception kinds that the modelled code can raise. -/
inductive PyErr where
  | typeError
  | attributeError
  | indexError
  | ioError
  deriving DecidableEq, Repr

/-- One bus-level side effect performed by the EPD driver
(`epd.py`): a command byte (DC low), a data byte (DC high), a reset-line
pulse, a blocking busy-line wait, a millisecond delay, or releasing the
GPIO lines. -/
inductive Action where
  | cmd (c : Nat)
  | data (d : Nat)
  | resetPulse
  | waitBusy
  | delayMs (n : Nat)
  | releaseLines
  deriving DecidableEq, Repr

/-- Abstract panel state of the spec's §4.4 state machine.  The Python code
keeps no explicit variable for it; it is the state of the physical panel,
recovered here from the command trace. -/
inductive PanelState where
  | Uninitialized
  | Idle
  | Busy
  | Sleeping
  deriving DecidableEq, Repr

/-- Modelled from the spec: §4.4's panel state machine, read off the command
trace.  A reset pulse wakes the panel to Idle, command 0x20 (activate
display update sequence) makes it Busy, the busy wait returns it from Busy
to Idle, and command 0x10 (deep sleep) puts it to Sleeping.  Data bytes and
delays do not change the abstract state. -/
def panelStep (s : PanelState) (a : Action) : PanelState :=
  match a with
  | .resetPulse => .Idle
  | .cmd c => if c = 0x10 then .Sleeping else if c = 0x20 then .Busy else s
  | .waitBusy => if s = .Busy then .Idle else s
  | .data _ => s
  | .delayMs _ => s
  | .releaseLines => s

/-- Panel state after executing a whole action trace. -/
def runPanel (s : PanelState) (l : List Action) : PanelState :=
  l.foldl panelStep s

/-- Model of `EPD_WIDTH` (`epd.py` line 12). -/
def EPD_WIDTH : Nat := 122

/-- Model of `EPD_HEIGHT` (`epd.py` line 13). -/
def EPD_HEIGHT : Nat := 250

/-- Python list indexing `xs[i]`: returns the element, or raises
`IndexError` when out of range (negative indexes do not occur in the
modelled loops). -/
def pyIndex (xs : List Nat) (i : Nat) : Except PyErr Nat :=
  if h : i < xs.length then .ok (xs.get ⟨i, h⟩) else .error .indexError

namespace EPD

/-- Model of `EPD.lut_partial_update` (`epd.py` lines 40-200), 159 bytes. -/
def lutPartialUpdate : List Nat :=
  [0x0, 0x40, 0x0, 0x0, 0x0, 0x0, 0x0, 0x0, 0x0, 0x0, 0x0, 0x0, 0x80, 0x80,
   0x0, 0x0, 0x0, 0x0, 0x0, 0x0, 0x0, 0x0, 0x0, 0x0, 0x40, 0x40, 0x0, 0x0,
   0x0, 0x0, 0x0, 0x0, 0x0, 0x0, 0x0, 0x0, 0x0, 0x80, 0x0, 0x0, 0x0, 0x0,
   0x0, 0x0, 0x0, 0x0, 0x0, 0x0, 0x0, 0x0, 0x0, 0x0, 0x0, 0x0, 0x0, 0x0,
   0x0, 0x0, 0x0, 0x0, 0x14, 0x0, 0x0, 0x0, 0x0, 0x0, 0x0, 0x1, 0x0, 0x0,
   0x0, 0x0, 0x0, 0x0, 0x1, 0x0, 0x0, 0x0, 0x0, 0x0, 0x0, 0x0, 0x0, 0x0,
   0x0, 0x0, 0x0, 0x0, 0x0, 0x0, 0x0, 0x0, 0x0, 0x0, 0x0, 0x0, 0x0, 0x0,
   0x0, 0x0, 0x0, 0x0, 0x0, 0x0, 0x0, 0x0, 0x0, 0x0, 0x0, 0x0, 0x0, 0x0,
   0x0, 0x0, 0x0, 0x0, 0x0, 0x0, 0x0, 0x0, 0x0, 0x0, 0x0, 0x0, 0x0, 0x0,
   0x0, 0x0, 0x0, 0x0, 0x0, 0x0, 0x0, 0x0, 0x0, 0x0, 0x0, 0x0, 0x0, 0x0,
   0x0, 0x0, 0x0, 0x0, 0x22, 0x22, 0x22, 0x22, 0x22, 0x22, 0x0, 0x0, 0x0,
   0x22, 0x17, 0x41, 0x00, 0x32, 0x36]

/-- Model of `EPD.lut_full_update` (`epd.py` lines 202-362), 159 bytes. -/
def lut_full_update : List Nat :=
  [0x80, 0x4A, 0x40, 0x0, 0x0, 0x0, 0x0, 0x0, 0x0, 0x0, 0x0, 0x0, 0x40,
   0x4A, 0x80, 0x0, 0x0, 0x0, 0x0, 0x0, 0x0, 0x0, 0x0, 0x0, 0x80, 0x4A,
   0x40, 0x0, 0x0, 0x0, 0x0, 0x0, 0x0, 0x0, 0x0, 0x0, 0x40, 0x4A, 0x80,
   0x0, 0x0, 0x0, 0x0, 0x0, 0x0, 0x0, 0x0, 0x0, 0x0, 0x0, 0x0, 0x0, 0x0,
   0x0, 0x0, 0x0, 0x0, 0x0, 0x0, 0x0, 0xF, 0x0, 0x0, 0x0, 0x0, 0x0, 0x0,
   0xF, 0x0, 0x0, 0xF, 0x0, 0x0, 0x2, 0xF, 0x0, 0x0, 0x0, 0x0, 0x0, 0x0,
   0x1, 0x0, 0x0, 0x0, 0x0, 0x0, 0x0, 0x0, 0x0, 0x0, 0x0, 0x0, 0x0, 0x0,
   0x0, 0x0, 0x0, 0x0, 0x0, 0x0, 0x0, 0x0, 0x0, 0x0, 0x0, 0x0, 0x0, 0x0,
   0x0, 0x0, 0x0, 0x0, 0x0, 0x0, 0x0, 0x0, 0x0, 0x0, 0x0, 0x0, 0x0, 0x0,
   0x0, 0x0, 0x0, 0x0, 0x0, 0x0, 0x0, 0x0, 0x0, 0x0, 0x0, 0x0, 0x0, 0x0,
   0x0, 0x0, 0x0, 0x0, 0x0, 0x0, 0x0, 0x22, 0x22, 0x22, 0x22, 0x22, 0x22,
   0x0, 0x0, 0x0, 0x22, 0x17, 0x41, 0x0, 0x32, 0x36]

/-- Model of `EPD.wait_busy` (`epd.py` lines 399-404): poll the busy line every
10 ms until it reads 0.  The loop has no timeout, so the model carries an
explicit fuel bound: `some k` means the line read idle at the `k`-th poll,
`none` means the line was still busy after exhausting `fuel` polls
(i.e. after about `10 * fuel` milliseconds the call has not returned). -/
def wait_busy (busyLine : Nat → Bool) : Nat → Nat → Option Nat
  | 0, _ => none
  | fuel + 1, k => if busyLine k then wait_busy busyLine fuel (k + 1) else some k

/-- Model of `EPD.turn_on_display` (`epd.py` lines 406-411). -/
def turn_on_display : List Action :=
  [.cmd 0x22, .data 0xC7, .cmd 0x20, .waitBusy]

/-- Model of `EPD.turn_on_display_part` (`epd.py` lines 413-418). -/
def turn_on_display_part : List Action :=
  [.cmd 0x22, .data 0x0F, .cmd 0x20, .waitBusy]

/-- Model of `EPD.Lut` (`epd.py` lines 420-429): command 0x32 followed by the first
153 LUT bytes, then a busy wait.  The source indexes `lut[i]` for
`i < 153`; both tables have 159 entries so the access is in range and is
modelled with `getD`. -/
def Lut (lut : List Nat) : List Action :=
  .cmd 0x32 :: ((List.range 153).map fun i => .data (lut.getD i 0)) ++ [.waitBusy]

/-- Model of `EPD.set_lut` (`epd.py` lines 431-447): the LUT body plus end option,
gate voltage, source voltages and VCOM taken from bytes 153-158. -/
def set_lut (lut : List Nat) : List Action :=
  Lut lut ++
    [.cmd 0x3F, .data (lut.getD 153 0),
     .cmd 0x03, .data (lut.getD 154 0),
     .cmd 0x04, .data (lut.getD 155 0), .data (lut.getD 156 0),
     .data (lut.getD 157 0),
     .cmd 0x2C, .data (lut.getD 158 0)]

/-- Model of `EPD.set_window` (`epd.py` lines 449-467). -/
def set_window (x_start y_start x_end y_end : Nat) : List Action :=
  [.cmd 0x44, .data ((x_start >>> 3) % 256), .data ((x_end >>> 3) % 256),
   .cmd 0x45, .data (y_start % 256), .data ((y_start >>> 8) % 256),
   .data (y_end % 256), .data ((y_end >>> 8) % 256)]

/-- Model of `EPD.SetCursor` (`epd.py` lines 469-482). -/
def SetCursor (x y : Nat) : List Action :=
  [.cmd 0x4E, .data (x % 256),
   .cmd 0x4F, .data (y % 256), .data ((y >>> 8) % 256)]

/-- Model of `EPD.init` (`epd.py` lines 484-529): reset pulse, busy wait, SWRESET,
driver output control, data entry mode, full-extent window, cursor, border
waveform, display update control, RAM option, busy wait, full-update LUT.
(The gpiod line requests at the top of the function configure host-side
GPIO objects and put nothing on the bus.) -/
def init : List Action :=
  [.resetPulse, .waitBusy, .cmd 0x12, .waitBusy,
   .cmd 0x01, .data 0xF9, .data 0x00, .data 0x00,
   .cmd 0x11, .data 0x03]
  ++ set_window 0 0 (EPD_WIDTH - 1) (EPD_HEIGHT - 1)
  ++ SetCursor 0 0
  ++ [.cmd 0x3C, .data 0x05,
      .cmd 0x21, .data 0x00, .data 0x80,
      .cmd 0x18, .data 0x80, .waitBusy]
  ++ set_lut lut_full_update

/-- Value of `linewidth` as computed at the top of `EPD.display`,
`EPD.display_partial`, `EPD.displayPartBaseImage` and `EPD.clear`:
`width/8` rounded up by the explicit `% 8` test (= 16 for width 122). -/
def linewidth : Nat :=
  if EPD_WIDTH % 8 = 0 then EPD_WIDTH / 8 else EPD_WIDTH / 8 + 1

/-- The framebuffer byte stream sent by the double loop
`for j in range(height): for i in range(linewidth): send_data(image[i + j*linewidth])`:
`n` sends remaining, next index `k`.  Each access can raise `IndexError`
when the buffer is shorter than the index reached. -/
def frameDataAux (image : List Nat) : Nat → Nat → Except PyErr (List Action)
  | 0, _ => .ok []
  | n + 1, k =>
    match pyIndex image k with
    | .error e => .error e
    | .ok v =>
      match frameDataAux image n (k + 1) with
      | .error e => .error e
      | .ok rest => .ok (Action.data v :: rest)

/-- The full framebuffer byte stream of the display loops.  Since
`i + j * linewidth` enumerates `0, 1, …, height*linewidth - 1` in order,
the double loop is a single pass over those indexes. -/
def frameData (image : List Nat) : Except PyErr (List Action) :=
  frameDataAux image (EPD_HEIGHT * linewidth) 0

/-- Model of `EPD.display` (`epd.py` lines 561-576): WRITE_RAM (0x24), the
framebuffer bytes, then `turn_on_display`.  The Python function returns
`None`. -/
def display (image : List Nat) : Except PyErr (List Action) :=
  match frameData image with
  | .error e => .error e
  | .ok d => .ok ((Action.cmd 0x24 :: d) ++ turn_on_display)

/-- The fixed action stream of `EPD.display_partial` before the framebuffer
write (`epd.py` lines 589-615): short reset pulse, partial-update LUT,
command 0x37 option bytes, border waveform, update control 0xC0 with
activation and busy wait, then window and cursor reprogramming. -/
def partialPrefix : List Action :=
  [.resetPulse]
  ++ set_lut lutPartialUpdate
  ++ [.cmd 0x37, .data 0x00, .data 0x00, .data 0x00, .data 0x00, .data 0x00,
      .data 0x40, .data 0x00, .data 0x00, .data 0x00, .data 0x00,
      .cmd 0x3C, .data 0x80,
      .cmd 0x22, .data 0xC0, .cmd 0x20, .waitBusy]
  ++ set_window 0 0 (EPD_WIDTH - 1) (EPD_HEIGHT - 1)
  ++ SetCursor 0 0

/-- Model of `EPD.display_partial` (`epd.py` lines 578-621). -/
def displayPartial (image : List Nat) : Except PyErr (List Action) :=
  match frameData image with
  | .error e => .error e
  | .ok d => .ok (partialPrefix ++ (Action.cmd 0x24 :: d) ++ turn_on_display_part)

/-- Model of `EPD.enter_deep_sleep` (`epd.py` lines 663-671).  Defined by the
driver, but no caller in the repository ever invokes it. -/
def enter_deep_sleep : List Action :=
  [.cmd 0x10, .data 0x01, .delayMs 2000, .releaseLines]

end EPD

/-- A PIL image as the code uses it: a size and a monochrome pixel
predicate (`true` = white, as in mode `"1"` where white pixels produce
1-bits in `tobytes("raw")`). -/
structure PILImage where
  w : Nat
  h : Nat
  pix : Nat → Nat → Bool

/-- One packed byte of a raw mode-`"1"` row: bits MSB-first, out-of-row
positions padded with 0 bits. -/
def packByte (img : PILImage) (y bi : Nat) : Nat :=
  (List.range 8).foldl
    (fun acc k => if 8 * bi + k < img.w ∧ img.pix (8 * bi + k) y
      then acc + 2 ^ (7 - k) else acc) 0

/-- PIL `Image.tobytes("raw")` for mode `"1"`: each row packed into
`ceil(w/8)` bytes, rows concatenated top to bottom. -/
def tobytes (img : PILImage) : List Nat :=
  (List.range img.h).flatMap fun y =>
    (List.range ((img.w + 7) / 8)).map (packByte img y)

/-- PIL `Image.rotate(90, expand=True)`: counterclockwise quarter turn; the
result has the transposed size. -/
def rotate90expand (img : PILImage) : PILImage :=
  ⟨img.h, img.w, fun x y => img.pix (img.w - 1 - y) x⟩

namespace EPD

/-- Model of `EPD.getbuffer` (`epd.py` lines 531-559).  Matching dimensions are
packed directly; transposed dimensions are rotated first; any other size
logs a warning and returns `[0x00] * (int(self.width / 8) * self.height)`
— note the Python `int(122 / 8) = 15` truncation, giving 3750 zero
bytes. -/
def getbuffer (img : PILImage) : List Nat :=
  if img.w = EPD_WIDTH ∧ img.h = EPD_HEIGHT then
    tobytes img
  else if img.w = EPD_HEIGHT ∧ img.h = EPD_WIDTH then
    tobytes (rotate90expand img)
  else
    List.replicate ((EPD_WIDTH / 8) * EPD_HEIGHT) 0x00

end EPD

/-- The Python-level attributes `EPD.__init__` (`epd.py` lines 33-38)
creates on the driver object that the app later reads.  `is_busy` is an
`Option` because `__init__` never assigns it: it only comes into existence
when `refresh_screen_task` first stores to it, and reading it while `none`
raises `AttributeError`. -/
structure EPDAttrs where
  is_busy : Option Bool

/-- The attribute state right after `EPD()` is constructed: `__init__`
sets `logger`, `width`, `height` and opens the SPI device, but never
assigns `is_busy`. -/
def EPD.initAttrs : EPDAttrs := ⟨none⟩

/-- Reading `epd.is_busy`: `AttributeError` when the attribute was never
assigned. -/
def EPD.read_is_busy (o : EPDAttrs) : Except PyErr Bool :=
  match o.is_busy with
  | none => .error .attributeError
  | some b => .ok b

/-- Model of `SCREEN_REFRESH_PERIOD_S` (`app.py` line 28). -/
def SCREEN_REFRESH_PERIOD_S : Int := 60

/-- Model of `MAPIO_CTRL.views_list` (`app.py` line 46) without the optional
`CUSTOM` entry (appended only when a custom image file exists on disk). -/
def views_list : List String := ["HOME", "STATUS", "SETUP", "SYSTEM"]

/-- Python `deque.rotate(-1)`: move the head to the back (used by the UP
button). -/
def rotateLeft : List α → List α
  | [] => []
  | x :: xs => xs ++ [x]

/-- Python `deque.rotate(1)`: move the last element to the front (used by the
DOWN button). -/
def rotateRight (l : List α) : List α :=
  (rotateLeft l.reverse).reverse

/-- Which waveform a physical refresh used: `EPD.display` is the Full
path, `EPD.display_partial` the Partial one. -/
inductive RefreshKind where
  | Full
  | Partial
  deriving DecidableEq, Repr

/-- The shared mutable state that one iteration of `refresh_screen_task`
(`app.py` lines 389-421) reads and writes: the fields of the global
`mapio_ctrl` it touches, the `epd.is_busy` attribute, and the task-local
`prev_hash` and `next_refresh_time` variables.  `prev_hash` is `none` for
the initial integer `0`, `some b` once a buffer fingerprint was stored;
the SHA-256 fingerprint of a buffer is modelled by the buffer itself
(equal digests exactly when the encoded buffers are equal). -/
structure SchedState where
  need_refresh : Bool
  pool : List String
  current_view : String
  is_busy : Option Bool
  prev_hash : Option (List Nat)
  next_refresh_time : Int

/-- The environment one scheduler tick runs in: the current clock value
`round(time.time())`, whether the `epd.init()` call at line 399 raises
(bus/GPIO failure), whether the `get_current_buffered_image()` call at
line 405 raises (rendering failure), the external view renderer
(out-of-scope rendering collaborator feeding
`get_current_buffered_image`), whether the `led_sys_green.blink(True)`
call at line 412 completes (in the source it raises `TypeError`, see
`blink_call_result` and `source_blink_ok`), and whether the bus write in
`epd.display` at line 414 fails. -/
structure TickEnv where
  now : Int
  render : String → PILImage
  initErr : Option PyErr
  renderErr : Option PyErr
  blinkOk : Bool
  displayErr : Option PyErr

/-- Value of `epd.display(image_array) is False` (`app.py` line 414): `display`
returns `None`, so the comparison is always false and the retry branch
below it is unreachable. -/
def displayResultIsFalse : Bool := false

/-- One iteration of the `while True` body of `refresh_screen_task`
(`app.py` lines 395-421).  Returns the updated state, the physical
framebuffer transmissions performed (display calls with their waveform
kind), and the uncaught exception, if any, escaping the loop body —
the task has no exception handler, so a `some` error terminates the
thread. -/
def refresh_tick (env : TickEnv) (s : SchedState) :
    SchedState × List (RefreshKind × List Nat) × Option PyErr :=
  if s.next_refresh_time + SCREEN_REFRESH_PERIOD_S < env.now ∨ s.need_refresh then
    match env.initErr with
    | some e =>
      -- epd.init() at line 399 raised: nothing has been mutated yet, so
      -- the dirty flag keeps whatever value let the branch be entered
      (s, [], some e)
    | none =>
    -- epd.is_busy = True; bookkeeping (lines 400-404)
    let cv := s.pool.headD s.current_view
    let s1 : SchedState :=
      { s with is_busy := some true, next_refresh_time := env.now,
               need_refresh := false, current_view := cv }
    match env.renderErr with
    | some e =>
      -- get_current_buffered_image() at line 405 raised, after the dirty
      -- flag was already cleared at line 402
      (s1, [], some e)
    | none =>
    let image_array := EPD.getbuffer (env.render cv)
    if some image_array ≠ s1.prev_hash then
      if env.blinkOk then
        let s2 := { s1 with prev_hash := some image_array }
        match env.displayErr with
        | some e => (s2, [], some e)
        | none =>
          if displayResultIsFalse then
            ({ s2 with need_refresh := true, prev_hash := none },
             [(.Full, image_array)], none)
          else
            (s2, [(.Full, image_array)], none)
      else
        -- mapio_ctrl.led_sys_green.blink(True) raised before prev_hash
        -- was updated (line 412 precedes line 413)
        (s1, [], some .typeError)
    else
      ({ s1 with is_busy := some false }, [], none)
  else
    (s, [], none)

/-- Model of `BatteryState` (`app.py` lines 31-36). -/
inductive BatteryState where
  | powered
  | on_battery
  | critical
  deriving DecidableEq, Repr

/-- LED hardware effects issued by `refresh_leds_task`. -/
inductive LedAction where
  | blinkSysGreen (arg : Bool)
  | sysGreenOn
  | sysRedOn
  | sysRedOff
  | chgGreenOn
  | chgGreenOff
  | chgRedOn
  | chgRedOff
  deriving DecidableEq, Repr

/-- The LED3 (charge LED) commands of `refresh_leds_task`
(`app.py` lines 443-457), keyed by the battery state. -/
def chgActions (b : BatteryState) : List LedAction :=
  match b with
  | .powered => [.chgRedOff, .chgGreenOn]
  | .on_battery => [.chgGreenOff, .chgRedOff, .chgGreenOn, .chgRedOn]
  | .critical => [.chgRedOn, .chgGreenOff]

/-- One iteration of the `while True` body of `refresh_leds_task`
(`app.py` lines 428-457).  Reading `epd.is_busy` while unset raises
`AttributeError`; while it is `True` the whole LED1 (docker status) block
is skipped (`pass`); otherwise `led_sys_green.blink(False)` runs first —
`blinkOk` tells whether that call completes (in the source it raises
`TypeError`). -/
def refresh_leds_iter (dockerActive : Bool) (batt : BatteryState)
    (blinkOk : Bool) (busy : Option Bool) : List LedAction × Option PyErr :=
  match busy with
  | none => ([], some .attributeError)
  | some true => (chgActions batt, none)
  | some false =>
    if blinkOk then
      ((if dockerActive then
          [.blinkSysGreen false, .sysGreenOn, .sysRedOff]
        else
          [.blinkSysGreen false, .sysGreenOn, .sysRedOn]) ++ chgActions batt,
       none)
    else
      ([], some .typeError)

/-- Button sources, named after the `consumer` labels attached in
`gpio_mon_create_task` (`app.py` lines 512-540). -/
inductive ButtonSource where
  | UP
  | DOWN
  | MID
  deriving DecidableEq, Repr

/-- A button edge event: its source line and the `time.time()` value at
which `_gpio_chip_handler` reads it. -/
structure BtnEvent where
  src : ButtonSource
  t : ℚ

/-- The state `_gpio_chip_handler` (`app.py` lines 460-509) reads and
writes: its local `last_event_time` and the shared `mapio_ctrl`
fields. -/
structure HandlerState where
  last_event_time : ℚ
  pool : List String
  need_refresh : Bool
  mid_press : Bool

/-- The handler's environment: the value the `epd.is_busy` read yields
(`none` = attribute unset, raising `AttributeError`) and whether the
`led_sys_green.blink(True)` calls complete (in the source they raise
`TypeError`). -/
structure HandlerEnv where
  busy : Option Bool
  blinkOk : Bool

/-- Processing of one edge event inside `_gpio_chip_handler`
(`app.py` lines 470-508).  Returns the new state, whether the event passed
the 3-second debounce test (`current_time - last_event_time > 3`,
`last_event_time` updated only then), and the uncaught exception, if any.
State mutations are applied in source order, so they precede a `blink`
failure; for MID the long-press poll and reboot path falls through to the
same mutations (lines 502-504). -/
def handler_step (env : HandlerEnv) (s : HandlerState) (e : BtnEvent) :
    HandlerState × Bool × Option PyErr :=
  if e.t - s.last_event_time > 3 then
    let s1 := { s with last_event_time := e.t }
    match env.busy with
    | none => (s1, true, some .attributeError)
    | some true => (s1, true, none)  -- "ePaper is busy, ignore button event"
    | some false =>
      match e.src with
      | .UP =>
        ({ s1 with need_refresh := true, pool := rotateLeft s1.pool }, true,
         if env.blinkOk then none else some .typeError)
      | .DOWN =>
        ({ s1 with need_refresh := true, pool := rotateRight s1.pool }, true,
         if env.blinkOk then none else some .typeError)
      | .MID =>
        ({ s1 with need_refresh := true, mid_press := true }, true,
         if env.blinkOk then none else some .typeError)
  else
    (s, false, none)

/-- Calling a Python function: a `TypeError` when the number of positional
arguments does not match the declared parameter count. -/
def pyCallArity (declared given : Nat) : Option PyErr :=
  if given = declared then none else some .typeError

/-- Declaration fact: `LED.blink` (`leds.py` line 41) is declared `def blink(self)`: zero
parameters beyond `self`. -/
def blink_declared_params : Nat := 0

/-- The outcome of the app's blink call sites — `blink(True)` at
`app.py` lines 412, 481, 486, 504 and `blink(False)` at lines 434, 438 —
each passing one positional argument. -/
def blink_call_result (nargs : Nat) : Option PyErr :=
  pyCallArity blink_declared_params nargs

/-- Whether the blink calls made by the tasks complete without raising:
they pass 1 argument to a 0-parameter method, so they do not. -/
def source_blink_ok : Bool := (blink_call_result 1).isNone

/-! ## Helper lemmas about the driver traces and the panel state machine -/

theorem runPanel_append (s : PanelState) (l1 l2 : List Action) :
    runPanel s (l1 ++ l2) = runPanel (runPanel s l1) l2 := by
  unfold runPanel
  exact List.foldl_append panelStep s l1 l2

theorem runPanel_cons (s : PanelState) (a : Action) (l : List Action) :
    runPanel s (a :: l) = runPanel (panelStep s a) l :=
  rfl

/-- A run consisting purely of data bytes leaves the panel state
unchanged. -/
theorem runPanel_data (l : List Action) (hl : ∀ a ∈ l, ∃ v, a = Action.data v) :
    ∀ s, runPanel s l = s := by
  induction l with
  | nil => intro s; rfl
  | cons a l ih =>
    intro s
    obtain ⟨v, hv⟩ := hl a (List.mem_cons_self a l)
    subst hv
    rw [runPanel_cons]
    exact ih (fun b hb => hl b (List.mem_cons_of_mem _ hb)) s

/-- Every action produced by the framebuffer loop is a data byte. -/
theorem EPD.frameDataAux_all_data (image : List Nat) :
    ∀ n k d, EPD.frameDataAux image n k = .ok d →
      ∀ a ∈ d, ∃ v, a = Action.data v := by
  intro n
  induction n with
  | zero =>
    intro k d h a ha
    simp only [EPD.frameDataAux] at h
    cases h
    simp at ha
  | succ n ih =>
    intro k d h a ha
    rw [EPD.frameDataAux] at h
    cases hidx : pyIndex image k with
    | error e => rw [hidx] at h; cases h
    | ok v =>
      rw [hidx] at h
      cases hrest : EPD.frameDataAux image n (k + 1) with
      | error e => rw [hrest] at h; cases h
      | ok rest =>
        rw [hrest] at h
        cases h
        rcases List.mem_cons.mp ha with h1 | h2
        · exact ⟨v, h1⟩
        · exact ih (k + 1) rest hrest a h2

/-- The framebuffer loop succeeds exactly on buffers long enough for all
its indexes; here, the success direction. -/
theorem EPD.frameDataAux_ok (image : List Nat) :
    ∀ n k, k + n ≤ image.length →
      ∃ d, EPD.frameDataAux image n k = .ok d := by
  intro n
  induction n with
  | zero => intro k _; exact ⟨[], rfl⟩
  | succ n ih =>
    intro k hk
    have hklt : k < image.length := by omega
    obtain ⟨d, hd⟩ := ih (k + 1) (by omega)
    refine ⟨Action.data (image.get ⟨k, hklt⟩) :: d, ?_⟩
    rw [EPD.frameDataAux]
    simp only [pyIndex, dif_pos hklt, hd]

/-- The failure direction: a buffer shorter than the range of indexes the
loop visits raises `IndexError` (the double loop in the Python code would
fault at index `len(image)`). -/
theorem EPD.frameDataAux_short (image : List Nat) :
    ∀ n k, k ≤ image.length → image.length < k + n →
      EPD.frameDataAux image n k = .error .indexError := by
  intro n
  induction n with
  | zero => intro k hk hlt; omega
  | succ n ih =>
    intro k hk hlt
    rcases Nat.lt_or_ge k image.length with hklt | hkge
    · have := ih (k + 1) (by omega) (by omega)
      rw [EPD.frameDataAux]
      simp only [pyIndex, dif_pos hklt, this]
    · rw [EPD.frameDataAux]
      simp only [pyIndex, dif_neg (by omega : ¬ k < image.length)]

/-- Shape of a successful `EPD.display` run. -/
theorem display_ok_shape (image : List Nat) (t : List Action)
    (h : EPD.display image = .ok t) :
    ∃ d, EPD.frameData image = .ok d ∧
      (∀ a ∈ d, ∃ v, a = Action.data v) ∧
      t = (Action.cmd 0x24 :: d) ++ EPD.turn_on_display := by
  cases hf : EPD.frameData image with
  | error e =>
    rw [EPD.display, hf] at h
    cases h
  | ok d =>
    rw [EPD.display, hf] at h
    cases h
    exact ⟨d, rfl, EPD.frameDataAux_all_data image _ _ d hf, rfl⟩

/-- Shape of a successful `EPD.display_partial` run. -/
theorem displayPartial_ok_shape (image : List Nat) (t : List Action)
    (h : EPD.displayPartial image = .ok t) :
    ∃ d, EPD.frameData image = .ok d ∧
      (∀ a ∈ d, ∃ v, a = Action.data v) ∧
      t = EPD.partialPrefix ++ (Action.cmd 0x24 :: d) ++ EPD.turn_on_display_part := by
  cases hf : EPD.frameData image with
  | error e =>
    rw [EPD.displayPartial, hf] at h
    cases h
  | ok d =>
    rw [EPD.displayPartial, hf] at h
    cases h
    exact ⟨d, rfl, EPD.frameDataAux_all_data image _ _ d hf, rfl⟩

/-- Running `EPD.init` always brings the panel to Idle, from any starting state:
it opens with a reset pulse and issues no activation or sleep command
afterwards. -/
theorem runPanel_init (s : PanelState) : runPanel s EPD.init = .Idle := by
  cases s <;> decide

/-- With a busy line that never clears, `EPD.wait_busy` never returns, no
matter how many 10 ms polls it is given. -/
theorem EPD.wait_busy_stuck (busyLine : Nat → Bool)
    (hb : ∀ k, busyLine k = true) : ∀ fuel k,
    EPD.wait_busy busyLine fuel k = none := by
  intro fuel
  induction fuel with
  | zero => intro k; rfl
  | succ n ih =>
    intro k
    rw [EPD.wait_busy, hb k]
    simp only [if_pos rfl]
    exact ih (k + 1)

/-- Evaluation: `EPD.frameData` succeeds on buffers of at least the full packed
length `height * linewidth = 4000`. -/
theorem EPD.frameData_ok (image : List Nat)
    (h : EPD_HEIGHT * EPD.linewidth ≤ image.length) :
    ∃ d, EPD.frameData image = .ok d :=
  EPD.frameDataAux_ok image (EPD_HEIGHT * EPD.linewidth) 0 (by omega)

/-- Evaluation: `EPD.frameData` raises `IndexError` on buffers shorter than the full
packed length (the Python double loop would fault at index
`len(image)`). -/
theorem EPD.frameData_short (image : List Nat)
    (h : image.length < EPD_HEIGHT * EPD.linewidth) :
    EPD.frameData image = .error .indexError :=
  EPD.frameDataAux_short image (EPD_HEIGHT * EPD.linewidth) 0 (Nat.zero_le _) (by omega)

/-- Evaluation: `EPD.display` raises `IndexError` on buffers shorter than the packed
length. -/
theorem EPD.display_short (image : List Nat)
    (h : image.length < EPD_HEIGHT * EPD.linewidth) :
    EPD.display image = .error .indexError := by
  rw [EPD.display, EPD.frameData_short image h]

/-- What a successful full-refresh transmission does to the panel: the
trace contains no deep-sleep command, it passes through Busy just before
its final busy wait, and it ends with the panel Idle (not Sleeping). -/
theorem display_trace_facts (image : List Nat) (t : List Action)
    (h : EPD.display image = .ok t) :
    Action.cmd 0x10 ∉ t ∧
    (∃ u, t = u ++ [Action.waitBusy] ∧ runPanel .Idle u = .Busy) ∧
    runPanel .Idle t = .Idle := by
  obtain ⟨d, _, hdata, ht⟩ := display_ok_shape image t h
  have hd_run : ∀ s, runPanel s d = s := runPanel_data d hdata
  have hhead : runPanel .Idle (Action.cmd 0x24 :: d) = .Idle := by
    rw [runPanel_cons]
    have hstep : panelStep .Idle (.cmd 0x24) = .Idle := by decide
    rw [hstep]
    exact hd_run .Idle
  subst ht
  refine ⟨?_, ?_, ?_⟩
  · intro hmem
    rcases List.mem_append.mp hmem with h1 | h2
    · rcases List.mem_cons.mp h1 with h3 | h4
      · cases h3
      · obtain ⟨v, hv⟩ := hdata _ h4
        cases hv
    · revert h2; decide
  · refine ⟨(Action.cmd 0x24 :: d) ++ [.cmd 0x22, .data 0xC7, .cmd 0x20], ?_, ?_⟩
    · simp [EPD.turn_on_display]
    · rw [runPanel_append, hhead]
      decide
  · rw [runPanel_append, hhead]
    decide

/-- What a successful partial-refresh transmission does to the panel: no
deep-sleep command either, and the panel ends Idle. -/
theorem displayPartial_trace_facts (image : List Nat) (t : List Action)
    (h : EPD.displayPartial image = .ok t) :
    Action.cmd 0x10 ∉ t ∧ runPanel .Idle t = .Idle := by
  obtain ⟨d, _, hdata, ht⟩ := displayPartial_ok_shape image t h
  have hd_run : ∀ s, runPanel s d = s := runPanel_data d hdata
  have hhead : runPanel .Idle (Action.cmd 0x24 :: d) = .Idle := by
    rw [runPanel_cons]
    have hstep : panelStep .Idle (.cmd 0x24) = .Idle := by decide
    rw [hstep]
    exact hd_run .Idle
  subst ht
  constructor
  · intro hmem
    rcases List.mem_append.mp hmem with h1 | h2
    · rcases List.mem_append.mp h1 with h3 | h4
      · revert h3; decide
      · rcases List.mem_cons.mp h4 with h5 | h6
        · cases h5
        · obtain ⟨v, hv⟩ := hdata _ h6
          cases hv
    · revert h2; decide
  · rw [runPanel_append, runPanel_append]
    have hpre : runPanel .Idle EPD.partialPrefix = .Idle := by decide
    rw [hpre, hhead]
    decide

/-! ## Helper lemmas about the task step functions -/

/-- A tick on which neither the period has elapsed nor the dirty flag is
set does nothing. -/
theorem refresh_tick_noop (env : TickEnv) (s : SchedState)
    (h : ¬ (s.next_refresh_time + SCREEN_REFRESH_PERIOD_S < env.now ∨
            s.need_refresh = true)) :
    refresh_tick env s = (s, [], none) := by
  rw [refresh_tick, if_neg h]

/-- A refresh-branch tick whose `epd.init()` call raises: the exception
escapes with nothing mutated — in particular the dirty flag keeps its
value. -/
theorem refresh_tick_init_raises (env : TickEnv) (s : SchedState) (e : PyErr)
    (henter : s.next_refresh_time + SCREEN_REFRESH_PERIOD_S < env.now ∨
              s.need_refresh = true)
    (hinit : env.initErr = some e) :
    refresh_tick env s = (s, [], some e) := by
  rw [refresh_tick, if_pos henter, hinit]

/-- A refresh-branch tick whose rendering call raises: the exception
escapes after the dirty flag was already cleared. -/
theorem refresh_tick_render_raises (env : TickEnv) (s : SchedState) (e : PyErr)
    (henter : s.next_refresh_time + SCREEN_REFRESH_PERIOD_S < env.now ∨
              s.need_refresh = true)
    (hinit : env.initErr = none) (hrender : env.renderErr = some e) :
    refresh_tick env s =
      ({ s with is_busy := some true, next_refresh_time := env.now,
                need_refresh := false,
                current_view := s.pool.headD s.current_view },
       [], some e) := by
  rw [refresh_tick, if_pos henter, hinit, hrender]

/-- A refresh-branch tick whose content differs from the stored hash, with
the blink call completing and the bus write succeeding: one Full
transmission, `prev_hash` updated, dirty cleared, `is_busy` left True. -/
theorem refresh_tick_displayed (env : TickEnv) (s : SchedState)
    (henter : s.next_refresh_time + SCREEN_REFRESH_PERIOD_S < env.now ∨
              s.need_refresh = true)
    (hinit : env.initErr = none) (hrender : env.renderErr = none)
    (hch : some (EPD.getbuffer (env.render (s.pool.headD s.current_view))) ≠
           s.prev_hash)
    (hbl : env.blinkOk = true) (herr : env.displayErr = none) :
    refresh_tick env s =
      ({ s with is_busy := some true, next_refresh_time := env.now,
                need_refresh := false,
                current_view := s.pool.headD s.current_view,
                prev_hash :=
                  some (EPD.getbuffer (env.render (s.pool.headD s.current_view))) },
       [(RefreshKind.Full, EPD.getbuffer (env.render (s.pool.headD s.current_view)))],
       none) := by
  rw [refresh_tick, if_pos henter, hinit, hrender]
  simp only [hbl, herr, if_pos hch, if_true, displayResultIsFalse, if_false,
    Bool.false_eq_true]

/-- A refresh-branch tick whose content equals the stored hash: no
transmission, dirty cleared, `is_busy` reset to False. -/
theorem refresh_tick_skipped (env : TickEnv) (s : SchedState)
    (henter : s.next_refresh_time + SCREEN_REFRESH_PERIOD_S < env.now ∨
              s.need_refresh = true)
    (hinit : env.initErr = none) (hrender : env.renderErr = none)
    (hsame : some (EPD.getbuffer (env.render (s.pool.headD s.current_view))) =
             s.prev_hash) :
    refresh_tick env s =
      ({ s with is_busy := some false, next_refresh_time := env.now,
                need_refresh := false,
                current_view := s.pool.headD s.current_view },
       [], none) := by
  rw [refresh_tick, if_pos henter, hinit, hrender]
  simp only [hsame, ne_eq, not_true_eq_false, if_false]

/-- A refresh-branch tick with changed content whose blink call raises
(as the source's `blink(True)` does): the exception escapes before
`prev_hash` is updated, before `epd.display` is reached, and before any
transmission. -/
theorem refresh_tick_blink_raises (env : TickEnv) (s : SchedState)
    (henter : s.next_refresh_time + SCREEN_REFRESH_PERIOD_S < env.now ∨
              s.need_refresh = true)
    (hinit : env.initErr = none) (hrender : env.renderErr = none)
    (hch : some (EPD.getbuffer (env.render (s.pool.headD s.current_view))) ≠
           s.prev_hash)
    (hbl : env.blinkOk = false) :
    refresh_tick env s =
      ({ s with is_busy := some true, next_refresh_time := env.now,
                need_refresh := false,
                current_view := s.pool.headD s.current_view },
       [], some .typeError) := by
  rw [refresh_tick, if_pos henter, hinit, hrender]
  simp only [hbl, if_pos hch, if_false, Bool.false_eq_true]

/-- A refresh-branch tick with changed content whose `epd.display` call
raises: the exception escapes (the task has no handler) with the dirty
flag already cleared and `prev_hash` already overwritten. -/
theorem refresh_tick_display_raises (env : TickEnv) (s : SchedState) (e : PyErr)
    (henter : s.next_refresh_time + SCREEN_REFRESH_PERIOD_S < env.now ∨
              s.need_refresh = true)
    (hinit : env.initErr = none) (hrender : env.renderErr = none)
    (hch : some (EPD.getbuffer (env.render (s.pool.headD s.current_view))) ≠
           s.prev_hash)
    (hbl : env.blinkOk = true) (herr : env.displayErr = some e) :
    refresh_tick env s =
      ({ s with is_busy := some true, next_refresh_time := env.now,
                need_refresh := false,
                current_view := s.pool.headD s.current_view,
                prev_hash :=
                  some (EPD.getbuffer (env.render (s.pool.headD s.current_view))) },
       [], some e) := by
  rw [refresh_tick, if_pos henter, hinit, hrender]
  simp only [hbl, herr, if_pos hch, if_true]

/-- Every transmission the scheduler ever performs is a Full one:
`refresh_screen_task` only calls `epd.display`, and `EPD.display_partial`
has no call site anywhere in the repository. -/
theorem refresh_tick_only_full (env : TickEnv) (s : SchedState) :
    ∀ p ∈ (refresh_tick env s).2.1, p.1 = RefreshKind.Full := by
  intro p hp
  by_cases hcond : s.next_refresh_time + SCREEN_REFRESH_PERIOD_S < env.now ∨
      s.need_refresh = true
  · rcases hi : env.initErr with _ | e
    · rcases hr : env.renderErr with _ | e2
      · by_cases hch : some (EPD.getbuffer
            (env.render (s.pool.headD s.current_view))) = s.prev_hash
        · rw [refresh_tick_skipped env s hcond hi hr hch] at hp
          simp at hp
        · cases hb : env.blinkOk
          · rw [refresh_tick_blink_raises env s hcond hi hr hch hb] at hp
            simp at hp
          · rcases hd : env.displayErr with _ | e3
            · rw [refresh_tick_displayed env s hcond hi hr hch hb hd] at hp
              rw [List.mem_singleton.mp hp]
            · rw [refresh_tick_display_raises env s e3 hcond hi hr hch hb hd] at hp
              simp at hp
      · rw [refresh_tick_render_raises env s e2 hcond hi hr] at hp
        simp at hp
    · rw [refresh_tick_init_raises env s e hcond hi] at hp
      simp at hp
  · rw [refresh_tick_noop env s hcond] at hp
    simp at hp

/-- An edge event within the debounce window of the last accepted event is
rejected with no state change at all. -/
theorem handler_step_rejected (env : HandlerEnv) (s : HandlerState) (e : BtnEvent)
    (h : ¬ e.t - s.last_event_time > 3) :
    handler_step env s e = (s, false, none) := by
  rw [handler_step, if_neg h]

/-- An accepted event read while `epd.is_busy` is True only refreshes the
debounce clock: no rotation, no dirty flag, no pending press. -/
theorem handler_step_busy (env : HandlerEnv) (s : HandlerState) (e : BtnEvent)
    (hacc : e.t - s.last_event_time > 3) (hb : env.busy = some true) :
    handler_step env s e = ({ s with last_event_time := e.t }, true, none) := by
  rw [handler_step, if_pos hacc, hb]

/-- An accepted event read before the first refresh cycle ever assigned
`epd.is_busy` raises `AttributeError`. -/
theorem handler_step_attr_err (env : HandlerEnv) (s : HandlerState) (e : BtnEvent)
    (hacc : e.t - s.last_event_time > 3) (hb : env.busy = none) :
    handler_step env s e =
      ({ s with last_event_time := e.t }, true, some .attributeError) := by
  rw [handler_step, if_pos hacc, hb]

/-- An accepted UP event with the panel not busy: view pool rotated left,
dirty set, and the outcome of the `blink(True)` call reported. -/
theorem handler_step_up (env : HandlerEnv) (s : HandlerState) (e : BtnEvent)
    (hacc : e.t - s.last_event_time > 3) (hb : env.busy = some false)
    (hsrc : e.src = .UP) :
    handler_step env s e =
      ({ s with last_event_time := e.t, need_refresh := true,
                pool := rotateLeft s.pool }, true,
       if env.blinkOk then none else some .typeError) := by
  rw [handler_step, if_pos hacc, hb, hsrc]

/-- A 10×10 test image: matches neither the panel geometry 122×250 nor its
transpose 250×122, so `EPD.getbuffer` takes its fallback branch on it. -/
def smallImage : PILImage := ⟨10, 10, fun _ _ => true⟩

/-! ## Claim theorems -/

/-- C1, counterexample.  The spec claims the busy-wait of a refresh
returns a BusyTimeout error within about 6 seconds (at most 6.5 s).  The
code's `wait_busy` polls every 10 ms with no timeout at all: against a
busy line that never clears, after 650 polls — 6.5 seconds of 10 ms
sleeps — the call still has not returned, and there is no timeout path
that could produce an error value. -/
theorem C1_counterexample :
    EPD.wait_busy (fun _ => true) 650 0 = none :=
  EPD.wait_busy_stuck (fun _ => true) (fun _ => rfl) 650 0

/-- C1, amended.  `EPD.wait_busy` has no timeout: for every busy line
that never reads idle, the wait returns nothing after any number of
polls — `trigger` never returns and no BusyTimeout error exists in the
code. -/
theorem C1_no_timeout (busyLine : Nat → Bool) (hb : ∀ k, busyLine k = true)
    (fuel k : Nat) :
    EPD.wait_busy busyLine fuel k = none :=
  EPD.wait_busy_stuck busyLine hb fuel k

/-- C1, witness for `C1_no_timeout` at the always-busy line. -/
theorem C1_witness :
    (∀ k, (fun _ : Nat => true) k = true) ∧
    EPD.wait_busy (fun _ => true) 1000 0 = none :=
  ⟨fun _ => rfl, C1_no_timeout (fun _ => true) (fun _ => rfl) 1000 0⟩

/-- C3, evaluation at the failing input.  For a bitmap matching neither
orientation, the spec (and the code's own "return a blank buffer" comment,
with blank = white = 0xFF as in `cli.py`'s `epd.clear(0xFF)`) calls for an
all-white buffer of the packed length `ceil(width/8) * height = 4000`.
The code instead returns `[0x00] * (int(122/8) * 250)`: 3750 bytes of
0x00 — every bit 0, i.e. all ink — which is shorter than a normal
framebuffer, and feeding it to `EPD.display` faults with `IndexError` at
byte 3750. -/
theorem C3_getbuffer_fallback :
    EPD.getbuffer smallImage = List.replicate 3750 0x00 ∧
    (EPD.getbuffer smallImage).length = 3750 ∧
    ((EPD_WIDTH + 7) / 8) * EPD_HEIGHT = 4000 ∧
    (∀ b ∈ EPD.getbuffer smallImage, b = 0x00) ∧
    EPD.display (EPD.getbuffer smallImage) = .error .indexError := by
  have hgb : EPD.getbuffer smallImage = List.replicate 3750 0x00 := by
    rw [EPD.getbuffer]
    norm_num [smallImage, EPD_WIDTH, EPD_HEIGHT]
  refine ⟨hgb, ?_, by norm_num [EPD_WIDTH, EPD_HEIGHT], ?_, ?_⟩
  · rw [hgb, List.length_replicate]
  · intro b hb
    rw [hgb] at hb
    exact List.eq_of_mem_replicate hb
  · apply EPD.display_short
    rw [hgb, List.length_replicate]
    norm_num [EPD_HEIGHT, EPD.linewidth, EPD_WIDTH]

/-- C6, amended.  After a completed Full refresh the panel is NOT
commanded into deep-sleep: `EPD.display` issues no deep-sleep command
(0x10) and `enter_deep_sleep` is never called by any task, so the state
sequence is Uninitialized → Idle → Busy → Idle, ending Idle rather than
Sleeping.  After a Partial refresh there is likewise no deep-sleep command
and the panel ends Idle (this half agrees with the claim). -/
theorem C6_no_deep_sleep (image image2 : List Nat)
    (h : EPD_HEIGHT * EPD.linewidth ≤ image.length)
    (h2 : EPD_HEIGHT * EPD.linewidth ≤ image2.length) :
    (∃ t, EPD.display image = .ok t ∧
      Action.cmd 0x10 ∉ EPD.init ++ t ∧
      runPanel .Uninitialized (EPD.init ++ t) = .Idle ∧
      ∃ u, EPD.init ++ t = u ++ [Action.waitBusy] ∧
        runPanel .Uninitialized u = .Busy) ∧
    (∃ t2, EPD.displayPartial image2 = .ok t2 ∧
      Action.cmd 0x10 ∉ t2 ∧ runPanel .Idle t2 = .Idle) := by
  constructor
  · obtain ⟨d, hd⟩ := EPD.frameData_ok image h
    have hdisp : EPD.display image =
        .ok ((Action.cmd 0x24 :: d) ++ EPD.turn_on_display) := by
      rw [EPD.display, hd]
    obtain ⟨hmem, ⟨u, hu, hbusy⟩, hidle⟩ :=
      display_trace_facts image _ hdisp
    refine ⟨_, hdisp, ?_, ?_, ?_⟩
    · intro hin
      rcases List.mem_append.mp hin with h1 | h2
      · revert h1; decide
      · exact hmem h2
    · rw [runPanel_append, runPanel_init]
      exact hidle
    · refine ⟨EPD.init ++ u, ?_, ?_⟩
      · rw [hu, List.append_assoc]
      · rw [runPanel_append, runPanel_init]
        exact hbusy
  · obtain ⟨d, hd⟩ := EPD.frameData_ok image2 h2
    have hdisp : EPD.displayPartial image2 =
        .ok (EPD.partialPrefix ++ (Action.cmd 0x24 :: d) ++
          EPD.turn_on_display_part) := by
      rw [EPD.displayPartial, hd]
    obtain ⟨hmem, hidle⟩ := displayPartial_trace_facts image2 _ hdisp
    exact ⟨_, hdisp, hmem, hidle⟩

/-- C6, counterexample.  A concrete completed Full refresh — `init`
followed by `display` of an all-white 4000-byte framebuffer — contains no
deep-sleep command and leaves the panel Idle, not Sleeping as the claim
requires. -/
theorem C6_counterexample :
    (∃ t, EPD.display (List.replicate 4000 0xFF) = .ok t ∧
      Action.cmd 0x10 ∉ EPD.init ++ t ∧
      runPanel .Uninitialized (EPD.init ++ t) = .Idle) ∧
    PanelState.Idle ≠ PanelState.Sleeping := by
  constructor
  · obtain ⟨d, hd⟩ := EPD.frameData_ok (List.replicate 4000 0xFF)
      (by rw [List.length_replicate]; norm_num [EPD_HEIGHT, EPD.linewidth, EPD_WIDTH])
    have hdisp : EPD.display (List.replicate 4000 0xFF) =
        .ok ((Action.cmd 0x24 :: d) ++ EPD.turn_on_display) := by
      rw [EPD.display, hd]
    obtain ⟨hmem, _, hidle⟩ := display_trace_facts _ _ hdisp
    refine ⟨_, hdisp, ?_, ?_⟩
    · intro hin
      rcases List.mem_append.mp hin with h1 | h2
      · revert h1; decide
      · exact hmem h2
    · rw [runPanel_append, runPanel_init]
      exact hidle
  · decide

/-- C6, witness for `C6_no_deep_sleep` at concrete 4000-byte
framebuffers. -/
theorem C6_witness :
    EPD_HEIGHT * EPD.linewidth ≤ (List.replicate 4000 0xFF).length ∧
    ((∃ t, EPD.display (List.replicate 4000 0xFF) = .ok t ∧
        Action.cmd 0x10 ∉ EPD.init ++ t ∧
        runPanel .Uninitialized (EPD.init ++ t) = .Idle ∧
        ∃ u, EPD.init ++ t = u ++ [Action.waitBusy] ∧
          runPanel .Uninitialized u = .Busy) ∧
      (∃ t2, EPD.displayPartial (List.replicate 4000 0x00) = .ok t2 ∧
        Action.cmd 0x10 ∉ t2 ∧ runPanel .Idle t2 = .Idle)) := by
  have hlen : EPD_HEIGHT * EPD.linewidth ≤ (List.replicate 4000 0xFF).length := by
    rw [List.length_replicate]
    norm_num [EPD_HEIGHT, EPD.linewidth, EPD_WIDTH]
  have hlen2 : EPD_HEIGHT * EPD.linewidth ≤ (List.replicate 4000 0x00).length := by
    rw [List.length_replicate]
    norm_num [EPD_HEIGHT, EPD.linewidth, EPD_WIDTH]
  exact ⟨hlen, C6_no_deep_sleep _ _ hlen hlen2⟩

/-- C7.  `init()` is idempotent on the panel state: from Uninitialized or
Idle (indeed from any state, since it opens with a hardware reset pulse),
one run of `EPD.init` leaves the panel Idle and a second run leaves it
Idle again; the second reset pulse is harmless rather than necessary. -/
theorem C7_init_idempotent (s : PanelState)
    (h : s = .Uninitialized ∨ s = .Idle) :
    runPanel s EPD.init = .Idle ∧
    runPanel (runPanel s EPD.init) EPD.init = .Idle :=
  ⟨runPanel_init s, by rw [runPanel_init]⟩

/-- C7, witness at the Uninitialized state. -/
theorem C7_witness :
    (PanelState.Uninitialized = .Uninitialized ∨
      PanelState.Uninitialized = .Idle) ∧
    (runPanel .Uninitialized EPD.init = .Idle ∧
      runPanel (runPanel .Uninitialized EPD.init) EPD.init = .Idle) :=
  ⟨Or.inl rfl, C7_init_idempotent .Uninitialized (Or.inl rfl)⟩

/-- Taking the head twice with the previous head as default changes
nothing (the scheduler re-reads `views_pool[0]` each tick). -/
theorem headD_headD (l : List String) (d : String) :
    l.headD (l.headD d) = l.headD d := by
  cases l <;> rfl

/-- C2, amended.  No driver-level error is caught at the refresh task
boundary: `refresh_screen_task` has no exception handler, so any error —
a bus failure inside `epd.init()` (line 399), a rendering failure
(line 405), or the blink `TypeError` (line 412) — propagates out of the
loop body and terminates the task.  An init failure is raised before
line 402 and leaves dirty still set (but the dead task never retries); a
rendering failure or the blink `TypeError` is raised after line 402 and
leaves dirty CLEARED, so that failed refresh is not even flagged for
retry.  The code's only retry path, `if epd.display(...) is False`
(line 414), is unreachable because `display` returns `None`. -/
theorem C2_no_error_handling
    (envI : TickEnv) (sI : SchedState) (eI : PyErr)
    (henterI : sI.next_refresh_time + SCREEN_REFRESH_PERIOD_S < envI.now ∨
               sI.need_refresh = true)
    (hinitI : envI.initErr = some eI)
    (envR : TickEnv) (sR : SchedState) (eR : PyErr)
    (henterR : sR.next_refresh_time + SCREEN_REFRESH_PERIOD_S < envR.now ∨
               sR.need_refresh = true)
    (hinitR : envR.initErr = none) (hrenderR : envR.renderErr = some eR)
    (envB : TickEnv) (sB : SchedState)
    (henterB : sB.next_refresh_time + SCREEN_REFRESH_PERIOD_S < envB.now ∨
               sB.need_refresh = true)
    (hinitB : envB.initErr = none) (hrenderB : envB.renderErr = none)
    (hchB : some (EPD.getbuffer (envB.render (sB.pool.headD sB.current_view))) ≠
            sB.prev_hash)
    (hblB : envB.blinkOk = source_blink_ok) :
    ((refresh_tick envI sI).2.2 = some eI ∧
      (refresh_tick envI sI).1 = sI ∧
      (refresh_tick envI sI).2.1 = []) ∧
    ((refresh_tick envR sR).2.2 = some eR ∧
      (refresh_tick envR sR).1.need_refresh = false ∧
      (refresh_tick envR sR).2.1 = []) ∧
    ((refresh_tick envB sB).2.2 = some .typeError ∧
      (refresh_tick envB sB).1.need_refresh = false ∧
      (refresh_tick envB sB).2.1 = []) ∧
    displayResultIsFalse = false := by
  have hblB' : envB.blinkOk = false := hblB
  rw [refresh_tick_init_raises envI sI eI henterI hinitI,
    refresh_tick_render_raises envR sR eR henterR hinitR hrenderR,
    refresh_tick_blink_raises envB sB henterB hinitB hrenderB hchB hblB']
  exact ⟨⟨rfl, rfl, rfl⟩, ⟨rfl, rfl, rfl⟩, ⟨rfl, rfl, rfl⟩, rfl⟩

/-- C2, counterexample.  Two concrete source-realizable failures refute
the claim.  A dirty tick whose `epd.init()` raises a bus `ioError`: the
error escapes the loop body uncaught (the claim says all driver errors
are caught and logged at the task boundary and none propagates).  And a
dirty tick on the source's own blink behavior: the `TypeError` escapes
with `need_refresh` already cleared (the claim says a failed refresh
leaves the dirty flag set so the next tick retries). -/
theorem C2_counterexample :
    (refresh_tick ⟨100, fun _ => smallImage, some .ioError, none,
        source_blink_ok, none⟩
      ⟨true, views_list, "HOME", none, none, 100⟩).2.2 =
        some PyErr.ioError ∧
    (refresh_tick ⟨100, fun _ => smallImage, none, none,
        source_blink_ok, none⟩
      ⟨true, views_list, "HOME", none, none, 100⟩).2.2 =
        some PyErr.typeError ∧
    (refresh_tick ⟨100, fun _ => smallImage, none, none,
        source_blink_ok, none⟩
      ⟨true, views_list, "HOME", none, none, 100⟩).1.need_refresh = false := by
  rw [refresh_tick_init_raises _ _ .ioError (Or.inr rfl) rfl,
    refresh_tick_blink_raises _ _ (Or.inr rfl) rfl rfl (by simp) rfl]
  exact ⟨rfl, rfl, rfl⟩

/-- C2, witness for `C2_no_error_handling`: the init-failure, the
rendering-failure and the blink-failure scenarios, each at a concrete
dirty tick with the source's blink behavior. -/
theorem C2_witness :
    (((100 : Int) + SCREEN_REFRESH_PERIOD_S < 100 ∨ true = true) ∧
      some (EPD.getbuffer smallImage) ≠ (none : Option (List Nat))) ∧
    (((refresh_tick ⟨100, fun _ => smallImage, some .ioError, none,
          source_blink_ok, none⟩
        ⟨true, views_list, "HOME", none, none, 100⟩).2.2 =
          some PyErr.ioError ∧
      (refresh_tick ⟨100, fun _ => smallImage, some .ioError, none,
          source_blink_ok, none⟩
        ⟨true, views_list, "HOME", none, none, 100⟩).1 =
          ⟨true, views_list, "HOME", none, none, 100⟩ ∧
      (refresh_tick ⟨100, fun _ => smallImage, some .ioError, none,
          source_blink_ok, none⟩
        ⟨true, views_list, "HOME", none, none, 100⟩).2.1 = []) ∧
    ((refresh_tick ⟨100, fun _ => smallImage, none, some .ioError,
          source_blink_ok, none⟩
        ⟨true, views_list, "HOME", none, none, 100⟩).2.2 =
          some PyErr.ioError ∧
      (refresh_tick ⟨100, fun _ => smallImage, none, some .ioError,
          source_blink_ok, none⟩
        ⟨true, views_list, "HOME", none, none, 100⟩).1.need_refresh = false ∧
      (refresh_tick ⟨100, fun _ => smallImage, none, some .ioError,
          source_blink_ok, none⟩
        ⟨true, views_list, "HOME", none, none, 100⟩).2.1 = []) ∧
    ((refresh_tick ⟨100, fun _ => smallImage, none, none,
          source_blink_ok, none⟩
        ⟨true, views_list, "HOME", none, none, 100⟩).2.2 =
          some PyErr.typeError ∧
      (refresh_tick ⟨100, fun _ => smallImage, none, none,
          source_blink_ok, none⟩
        ⟨true, views_list, "HOME", none, none, 100⟩).1.need_refresh = false ∧
      (refresh_tick ⟨100, fun _ => smallImage, none, none,
          source_blink_ok, none⟩
        ⟨true, views_list, "HOME", none, none, 100⟩).2.1 = []) ∧
    displayResultIsFalse = false) :=
  ⟨⟨Or.inr rfl, by simp⟩,
   C2_no_error_handling
     ⟨100, fun _ => smallImage, some .ioError, none, source_blink_ok, none⟩
     ⟨true, views_list, "HOME", none, none, 100⟩ .ioError (Or.inr rfl) rfl
     ⟨100, fun _ => smallImage, none, some .ioError, source_blink_ok, none⟩
     ⟨true, views_list, "HOME", none, none, 100⟩ .ioError (Or.inr rfl) rfl rfl
     ⟨100, fun _ => smallImage, none, none, source_blink_ok, none⟩
     ⟨true, views_list, "HOME", none, none, 100⟩ (Or.inr rfl) rfl rfl
     (by simp) rfl⟩

/-- C4, amended.  With the source's blink behavior, two consecutive
refresh cycles with identical rendered content produce ZERO physical bus
transmissions, not one: each content-changing cycle raises `TypeError` at
the `blink(True)` call (leds.py arity bug) before the fingerprint is
stored at line 413 and before `epd.display` at line 414, so `prev_hash`
never changes, no fingerprint comparison ever succeeds, and the refresh
task dies at the first such cycle.  The dirty flag is still cleared each
time. -/
theorem C4_no_transmission_pair (env1 env2 : TickEnv) (s0 : SchedState)
    (henter1 : s0.next_refresh_time + SCREEN_REFRESH_PERIOD_S < env1.now ∨
               s0.need_refresh = true)
    (hinit1 : env1.initErr = none) (hrender1 : env1.renderErr = none)
    (hch : some (EPD.getbuffer (env1.render (s0.pool.headD s0.current_view))) ≠
           s0.prev_hash)
    (hbl1 : env1.blinkOk = source_blink_ok)
    (hinit2 : env2.initErr = none) (hrender2 : env2.renderErr = none)
    (hbl2 : env2.blinkOk = source_blink_ok)
    (hsame : EPD.getbuffer (env2.render (s0.pool.headD s0.current_view)) =
             EPD.getbuffer (env1.render (s0.pool.headD s0.current_view))) :
    (refresh_tick env1 s0).2.1 = [] ∧
    (refresh_tick env1 s0).2.2 = some .typeError ∧
    (refresh_tick env1 s0).1.prev_hash = s0.prev_hash ∧
    (refresh_tick env1 s0).1.need_refresh = false ∧
    (refresh_tick env2
      { (refresh_tick env1 s0).1 with need_refresh := true }).2.1 = [] ∧
    (refresh_tick env2
      { (refresh_tick env1 s0).1 with need_refresh := true }).2.2 =
        some .typeError ∧
    (refresh_tick env1 s0).2.1 ++
      (refresh_tick env2
        { (refresh_tick env1 s0).1 with need_refresh := true }).2.1 = [] := by
  have hbl1' : env1.blinkOk = false := hbl1
  have hbl2' : env2.blinkOk = false := hbl2
  have h1 := refresh_tick_blink_raises env1 s0 henter1 hinit1 hrender1 hch hbl1'
  rw [h1]
  have hch2 : some (EPD.getbuffer (env2.render
      (s0.pool.headD (s0.pool.headD s0.current_view)))) ≠ s0.prev_hash := by
    rw [headD_headD, hsame]
    exact hch
  have h2 := refresh_tick_blink_raises env2
    { s0 with is_busy := some true, next_refresh_time := env1.now,
              need_refresh := true,
              current_view := s0.pool.headD s0.current_view }
    (Or.inr rfl) hinit2 hrender2 hch2 hbl2'
  rw [h2]
  exact ⟨rfl, rfl, rfl, rfl, rfl, rfl, rfl⟩

/-- C4, counterexample.  The claim's scenario executed source-faithfully
at a concrete input: the first content-changing cycle transmits nothing
(it raises `TypeError` before reaching `epd.display`) and never stores a
fingerprint, and a second cycle over the identical content transmits
nothing either — zero transmissions across the pair, not the claimed
exactly one. -/
theorem C4_counterexample :
    (refresh_tick ⟨100, fun _ => smallImage, none, none,
        source_blink_ok, none⟩
      ⟨true, views_list, "HOME", none, none, 100⟩).2.1 = [] ∧
    (refresh_tick ⟨100, fun _ => smallImage, none, none,
        source_blink_ok, none⟩
      ⟨true, views_list, "HOME", none, none, 100⟩).2.2 =
        some PyErr.typeError ∧
    (refresh_tick ⟨100, fun _ => smallImage, none, none,
        source_blink_ok, none⟩
      ⟨true, views_list, "HOME", none, none, 100⟩).1.prev_hash = none ∧
    ((refresh_tick ⟨100, fun _ => smallImage, none, none,
        source_blink_ok, none⟩
      ⟨true, views_list, "HOME", none, none, 100⟩).2.1 ++
     (refresh_tick ⟨101, fun _ => smallImage, none, none,
        source_blink_ok, none⟩
      { (refresh_tick ⟨100, fun _ => smallImage, none, none,
          source_blink_ok, none⟩
        ⟨true, views_list, "HOME", none, none, 100⟩).1 with
        need_refresh := true }).2.1).length = 0 := by
  have h1 := refresh_tick_blink_raises
    ⟨100, fun _ => smallImage, none, none, source_blink_ok, none⟩
    ⟨true, views_list, "HOME", none, none, 100⟩
    (Or.inr rfl) rfl rfl (by simp) rfl
  rw [h1]
  have h2 := refresh_tick_blink_raises
    ⟨101, fun _ => smallImage, none, none, source_blink_ok, none⟩
    { (⟨true, views_list, "HOME", none, none, 100⟩ : SchedState) with
      is_busy := some true, next_refresh_time := 100,
      need_refresh := true, current_view := views_list.headD "HOME" }
    (Or.inr rfl) rfl rfl (by simp) rfl
  rw [h2]
  exact ⟨rfl, rfl, rfl, rfl⟩

/-- C4, witness for `C4_no_transmission_pair` at two concrete
identical-content dirty cycles with the source's blink behavior. -/
theorem C4_witness :
    (((100 : Int) + SCREEN_REFRESH_PERIOD_S < 100 ∨ true = true) ∧
      some (EPD.getbuffer smallImage) ≠ (none : Option (List Nat))) ∧
    ((refresh_tick ⟨100, fun _ => smallImage, none, none,
        source_blink_ok, none⟩
      ⟨true, views_list, "HOME", none, none, 100⟩).2.1 = [] ∧
    (refresh_tick ⟨100, fun _ => smallImage, none, none,
        source_blink_ok, none⟩
      ⟨true, views_list, "HOME", none, none, 100⟩).2.2 =
        some PyErr.typeError ∧
    (refresh_tick ⟨100, fun _ => smallImage, none, none,
        source_blink_ok, none⟩
      ⟨true, views_list, "HOME", none, none, 100⟩).1.prev_hash = none ∧
    (refresh_tick ⟨100, fun _ => smallImage, none, none,
        source_blink_ok, none⟩
      ⟨true, views_list, "HOME", none, none, 100⟩).1.need_refresh = false ∧
    (refresh_tick ⟨101, fun _ => smallImage, none, none,
        source_blink_ok, none⟩
      { (refresh_tick ⟨100, fun _ => smallImage, none, none,
          source_blink_ok, none⟩
        ⟨true, views_list, "HOME", none, none, 100⟩).1 with
        need_refresh := true }).2.1 = [] ∧
    (refresh_tick ⟨101, fun _ => smallImage, none, none,
        source_blink_ok, none⟩
      { (refresh_tick ⟨100, fun _ => smallImage, none, none,
          source_blink_ok, none⟩
        ⟨true, views_list, "HOME", none, none, 100⟩).1 with
        need_refresh := true }).2.2 = some PyErr.typeError ∧
    (refresh_tick ⟨100, fun _ => smallImage, none, none,
        source_blink_ok, none⟩
      ⟨true, views_list, "HOME", none, none, 100⟩).2.1 ++
      (refresh_tick ⟨101, fun _ => smallImage, none, none,
          source_blink_ok, none⟩
        { (refresh_tick ⟨100, fun _ => smallImage, none, none,
            source_blink_ok, none⟩
          ⟨true, views_list, "HOME", none, none, 100⟩).1 with
          need_refresh := true }).2.1 = []) :=
  ⟨⟨Or.inr rfl, by simp⟩,
   C4_no_transmission_pair
     ⟨100, fun _ => smallImage, none, none, source_blink_ok, none⟩
     ⟨101, fun _ => smallImage, none, none, source_blink_ok, none⟩
     ⟨true, views_list, "HOME", none, none, 100⟩
     (Or.inr rfl) rfl rfl (by simp) rfl rfl rfl rfl rfl⟩

/-- C5, amended.  On a tick where dirty is set and the 60 s Full period
has not elapsed, the scheduler does NOT perform a Partial refresh: every
transmission the scheduler can ever make uses the Full path
(`EPD.display`; `EPD.display_partial` has no call site), there is no
force-full flag in the program, and the view pointer is not advanced —
the scheduler merely syncs `current_view` to the unchanged head of the
view pool (rotation happens solely in the button handler) and clears
dirty.  With the source's blink behavior the tick then raises `TypeError`
at `blink(True)` and transmits nothing at all. -/
theorem C5_no_partial_refresh (env : TickEnv) (s : SchedState)
    (hdirty : s.need_refresh = true)
    (hperiod : ¬ s.next_refresh_time + SCREEN_REFRESH_PERIOD_S < env.now)
    (hinit : env.initErr = none) (hrender : env.renderErr = none)
    (hch : some (EPD.getbuffer (env.render (s.pool.headD s.current_view))) ≠
           s.prev_hash)
    (hbl : env.blinkOk = source_blink_ok) :
    (refresh_tick env s).2.1 = [] ∧
    (refresh_tick env s).2.2 = some .typeError ∧
    (refresh_tick env s).1.pool = s.pool ∧
    (refresh_tick env s).1.need_refresh = false ∧
    (refresh_tick env s).1.current_view = s.pool.headD s.current_view ∧
    (∀ env2 s2, ∀ p ∈ (refresh_tick env2 s2).2.1, p.1 = RefreshKind.Full) := by
  have hbl' : env.blinkOk = false := hbl
  rw [refresh_tick_blink_raises env s (Or.inr hdirty) hinit hrender hch hbl']
  exact ⟨rfl, rfl, rfl, rfl, rfl, fun env2 s2 => refresh_tick_only_full env2 s2⟩

/-- C5, counterexample.  A concrete tick with dirty set and the Full
period not elapsed, run with the source's blink behavior: the scheduler
triggers no Partial waveform (it performs no transmission at all and
raises `TypeError`), and the view pool is not advanced — against the
claim's Partial trigger, force-full flag and pointer advancement. -/
theorem C5_counterexample :
    (refresh_tick ⟨100, fun _ => smallImage, none, none,
        source_blink_ok, none⟩
      ⟨true, views_list, "HOME", none, none, 100⟩).2.1 = [] ∧
    (∀ p ∈ (refresh_tick ⟨100, fun _ => smallImage, none, none,
        source_blink_ok, none⟩
      ⟨true, views_list, "HOME", none, none, 100⟩).2.1,
        p.1 ≠ RefreshKind.Partial) ∧
    (refresh_tick ⟨100, fun _ => smallImage, none, none,
        source_blink_ok, none⟩
      ⟨true, views_list, "HOME", none, none, 100⟩).2.2 =
        some PyErr.typeError ∧
    (refresh_tick ⟨100, fun _ => smallImage, none, none,
        source_blink_ok, none⟩
      ⟨true, views_list, "HOME", none, none, 100⟩).1.pool = views_list := by
  rw [refresh_tick_blink_raises _ _ (Or.inr rfl) rfl rfl (by simp) rfl]
  exact ⟨rfl, by simp, rfl, rfl⟩

/-- C5, witness for `C5_no_partial_refresh` at a concrete dirty tick with
the period not yet elapsed and the source's blink behavior. -/
theorem C5_witness :
    (true = true ∧ ¬ ((100 : Int) + SCREEN_REFRESH_PERIOD_S < 100) ∧
      some (EPD.getbuffer smallImage) ≠ (none : Option (List Nat))) ∧
    ((refresh_tick ⟨100, fun _ => smallImage, none, none,
        source_blink_ok, none⟩
      ⟨true, views_list, "HOME", none, none, 100⟩).2.1 = [] ∧
    (refresh_tick ⟨100, fun _ => smallImage, none, none,
        source_blink_ok, none⟩
      ⟨true, views_list, "HOME", none, none, 100⟩).2.2 =
        some PyErr.typeError ∧
    (refresh_tick ⟨100, fun _ => smallImage, none, none,
        source_blink_ok, none⟩
      ⟨true, views_list, "HOME", none, none, 100⟩).1.pool = views_list ∧
    (refresh_tick ⟨100, fun _ => smallImage, none, none,
        source_blink_ok, none⟩
      ⟨true, views_list, "HOME", none, none, 100⟩).1.need_refresh = false ∧
    (refresh_tick ⟨100, fun _ => smallImage, none, none,
        source_blink_ok, none⟩
      ⟨true, views_list, "HOME", none, none, 100⟩).1.current_view =
        views_list.headD "HOME" ∧
    (∀ env2 s2, ∀ p ∈ (refresh_tick env2 s2).2.1, p.1 = RefreshKind.Full)) :=
  ⟨⟨rfl, by norm_num [SCREEN_REFRESH_PERIOD_S], by simp⟩,
   C5_no_partial_refresh
     ⟨100, fun _ => smallImage, none, none, source_blink_ok, none⟩
     ⟨true, views_list, "HOME", none, none, 100⟩
     rfl (by norm_num [SCREEN_REFRESH_PERIOD_S]) rfl rfl (by simp) rfl⟩

/-- C8.  Debounce: when an edge event is accepted (more than 3 s after
the previously accepted one) and a second edge from the same source
follows within less than 3 s, the handler accepts exactly the first one;
the second is rejected and changes nothing — no view rotation, no dirty
flag, no pending press, not even the debounce clock. -/
theorem C8_debounce (env : HandlerEnv) (s : HandlerState) (e1 e2 : BtnEvent)
    (hsrc : e1.src = e2.src)
    (hacc : e1.t - s.last_event_time > 3)
    (hwin : e2.t - e1.t < 3) :
    (handler_step env s e1).2.1 = true ∧
    (handler_step env (handler_step env s e1).1 e2).2.1 = false ∧
    (handler_step env (handler_step env s e1).1 e2).1 =
      (handler_step env s e1).1 := by
  have hlast : (handler_step env s e1).1.last_event_time = e1.t := by
    obtain ⟨busy, blinkOk⟩ := env
    rw [handler_step, if_pos hacc]
    rcases busy with _ | b
    · rfl
    · cases b
      · obtain ⟨src1, t1⟩ := e1
        cases src1 <;> rfl
      · rfl
  have hacc1 : (handler_step env s e1).2.1 = true := by
    obtain ⟨busy, blinkOk⟩ := env
    rw [handler_step, if_pos hacc]
    rcases busy with _ | b
    · rfl
    · cases b
      · obtain ⟨src1, t1⟩ := e1
        cases src1 <;> rfl
      · rfl
  have hrej := handler_step_rejected env (handler_step env s e1).1 e2
    (by rw [hlast]; linarith)
  exact ⟨hacc1, by rw [hrej], by rw [hrej]⟩

/-- C8, witness: an accepted UP edge at t=10 s followed by another UP
edge at t=12 s, within the 3 s window. -/
theorem C8_witness :
    ((ButtonSource.UP = ButtonSource.UP) ∧
      ((10 : ℚ) - 0 > 3) ∧ ((12 : ℚ) - 10 < 3)) ∧
    ((handler_step ⟨some false, true⟩ ⟨0, views_list, false, false⟩
        ⟨.UP, 10⟩).2.1 = true ∧
    (handler_step ⟨some false, true⟩
        (handler_step ⟨some false, true⟩ ⟨0, views_list, false, false⟩
          ⟨.UP, 10⟩).1 ⟨.UP, 12⟩).2.1 = false ∧
    (handler_step ⟨some false, true⟩
        (handler_step ⟨some false, true⟩ ⟨0, views_list, false, false⟩
          ⟨.UP, 10⟩).1 ⟨.UP, 12⟩).1 =
      (handler_step ⟨some false, true⟩ ⟨0, views_list, false, false⟩
        ⟨.UP, 10⟩).1) :=
  ⟨⟨rfl, by norm_num, by norm_num⟩,
   C8_debounce ⟨some false, true⟩ ⟨0, views_list, false, false⟩
     ⟨.UP, 10⟩ ⟨.UP, 12⟩ rfl (by norm_num) (by norm_num)⟩

/-- C9.  The `epd.is_busy` flag: it does not exist before the first
refresh cycle (reading it raises `AttributeError`, and the LED task's
first iteration dies of exactly that); a refresh-branch tick sets it True
at the start, and only the hash-equal branch ever assigns False — so a
tick that physically transmits leaves it True, after which the LED task
skips the whole docker-status block and the button handler accepts events
but performs no rotation, dirty change or pending press, until some later
tick renders content equal to the stored hash. -/
theorem C9_is_busy_stuck
    (env : TickEnv) (s : SchedState) (env2 : TickEnv) (s2 : SchedState)
    (docker : Bool) (batt : BatteryState) (bOk : Bool)
    (henv : HandlerEnv) (hs : HandlerState) (e : BtnEvent)
    (henter : s.next_refresh_time + SCREEN_REFRESH_PERIOD_S < env.now ∨
              s.need_refresh = true)
    (hch : some (EPD.getbuffer (env.render (s.pool.headD s.current_view))) ≠
           s.prev_hash)
    (hinit : env.initErr = none) (hrender : env.renderErr = none)
    (hbl : env.blinkOk = true) (herr : env.displayErr = none)
    (henter2 : s2.next_refresh_time + SCREEN_REFRESH_PERIOD_S < env2.now ∨
               s2.need_refresh = true)
    (hinit2 : env2.initErr = none) (hrender2 : env2.renderErr = none)
    (hsame : some (EPD.getbuffer (env2.render (s2.pool.headD s2.current_view))) =
             s2.prev_hash)
    (hbusy : henv.busy = some true)
    (hacc : e.t - hs.last_event_time > 3) :
    EPD.initAttrs.is_busy = none ∧
    EPD.read_is_busy EPD.initAttrs = .error .attributeError ∧
    refresh_leds_iter docker batt bOk none = ([], some .attributeError) ∧
    (refresh_tick env s).1.is_busy = some true ∧
    (refresh_tick env s).2.1 ≠ [] ∧
    (refresh_tick env2 s2).1.is_busy = some false ∧
    (refresh_leds_iter docker batt bOk (some true)).1 = chgActions batt ∧
    (refresh_leds_iter docker batt bOk (some true)).2 = none ∧
    (handler_step henv hs e).1.pool = hs.pool ∧
    (handler_step henv hs e).1.need_refresh = hs.need_refresh ∧
    (handler_step henv hs e).1.mid_press = hs.mid_press ∧
    (handler_step henv hs e).2.1 = true := by
  have h1 := refresh_tick_displayed env s henter hinit hrender hch hbl herr
  have h2 := refresh_tick_skipped env2 s2 henter2 hinit2 hrender2 hsame
  have h3 := handler_step_busy henv hs e hacc hbusy
  refine ⟨rfl, rfl, rfl, ?_, ?_, ?_, rfl, rfl, ?_, ?_, ?_, ?_⟩
  · rw [h1]
  · rw [h1]; simp
  · rw [h2]
  · rw [h3]
  · rw [h3]
  · rw [h3]
  · rw [h3]

/-- C9, witness: a content-changing dirty tick, a hash-equal dirty tick,
an LED iteration and an accepted-but-busy button event, all concrete. -/
theorem C9_witness :
    ((((100 : Int) + SCREEN_REFRESH_PERIOD_S < 100 ∨ true = true) ∧
       some (EPD.getbuffer smallImage) ≠ (none : Option (List Nat))) ∧
      (((100 : Int) + SCREEN_REFRESH_PERIOD_S < 100 ∨ true = true) ∧
       ((10 : ℚ) - 0 > 3))) ∧
    (EPD.initAttrs.is_busy = none ∧
    EPD.read_is_busy EPD.initAttrs = .error .attributeError ∧
    refresh_leds_iter true .powered true none = ([], some .attributeError) ∧
    (refresh_tick ⟨100, fun _ => smallImage, none, none, true, none⟩
        ⟨true, views_list, "HOME", none, none, 100⟩).1.is_busy = some true ∧
    (refresh_tick ⟨100, fun _ => smallImage, none, none, true, none⟩
        ⟨true, views_list, "HOME", none, none, 100⟩).2.1 ≠ [] ∧
    (refresh_tick ⟨100, fun _ => smallImage, none, none, true, none⟩
        ⟨true, views_list, "HOME", some true,
         some (EPD.getbuffer smallImage), 100⟩).1.is_busy = some false ∧
    (refresh_leds_iter true .powered true (some true)).1 = chgActions .powered ∧
    (refresh_leds_iter true .powered true (some true)).2 = none ∧
    (handler_step ⟨some true, true⟩ ⟨0, views_list, false, false⟩
        ⟨.UP, 10⟩).1.pool = views_list ∧
    (handler_step ⟨some true, true⟩ ⟨0, views_list, false, false⟩
        ⟨.UP, 10⟩).1.need_refresh = false ∧
    (handler_step ⟨some true, true⟩ ⟨0, views_list, false, false⟩
        ⟨.UP, 10⟩).1.mid_press = false ∧
    (handler_step ⟨some true, true⟩ ⟨0, views_list, false, false⟩
        ⟨.UP, 10⟩).2.1 = true) :=
  ⟨⟨⟨Or.inr rfl, by simp⟩, ⟨Or.inr rfl, by norm_num⟩⟩,
   C9_is_busy_stuck
     ⟨100, fun _ => smallImage, none, none, true, none⟩
     ⟨true, views_list, "HOME", none, none, 100⟩
     ⟨100, fun _ => smallImage, none, none, true, none⟩
     ⟨true, views_list, "HOME", some true,
      some (EPD.getbuffer smallImage), 100⟩
     true .powered true
     ⟨some true, true⟩ ⟨0, views_list, false, false⟩ ⟨.UP, 10⟩
     (Or.inr rfl) (by simp) rfl rfl rfl rfl (Or.inr rfl) rfl rfl rfl rfl
     (by norm_num)⟩

/-- C10.  `LED.blink` is declared with no parameter beyond `self`, while
every blink request made by the tasks passes one boolean argument, so
each such call raises `TypeError`.  Consequently a content-changing
refresh tick dies with an uncaught `TypeError` before transmitting, an
accepted non-busy button event dies with an uncaught `TypeError` (after
its state mutations), and a non-busy LED iteration dies the same way. -/
theorem C10_blink_arity
    (env : TickEnv) (s : SchedState)
    (henv : HandlerEnv) (hs : HandlerState) (e : BtnEvent)
    (docker : Bool) (batt : BatteryState)
    (henter : s.next_refresh_time + SCREEN_REFRESH_PERIOD_S < env.now ∨
              s.need_refresh = true)
    (hch : some (EPD.getbuffer (env.render (s.pool.headD s.current_view))) ≠
           s.prev_hash)
    (hinit : env.initErr = none) (hrender : env.renderErr = none)
    (hbl : env.blinkOk = source_blink_ok)
    (hb2 : henv.busy = some false) (hbl2 : henv.blinkOk = source_blink_ok)
    (hacc : e.t - hs.last_event_time > 3) (hsrc : e.src = .UP) :
    blink_call_result 1 = some PyErr.typeError ∧
    source_blink_ok = false ∧
    (refresh_tick env s).2.2 = some .typeError ∧
    (refresh_tick env s).2.1 = [] ∧
    (handler_step henv hs e).2.2 = some .typeError ∧
    (refresh_leds_iter docker batt source_blink_ok (some false)).2 =
      some .typeError := by
  have hbl' : env.blinkOk = false := hbl
  have hbl2' : henv.blinkOk = false := hbl2
  have h1 := refresh_tick_blink_raises env s henter hinit hrender hch hbl'
  have h2 := handler_step_up henv hs e hacc hb2 hsrc
  refine ⟨rfl, rfl, ?_, ?_, ?_, ?_⟩
  · rw [h1]
  · rw [h1]
  · rw [h2, hbl2']
    rfl
  · rfl

/-- C10, witness: a concrete content-changing tick, accepted UP event and
docker-running LED iteration, each with the blink call behaving as the
source declares it. -/
theorem C10_witness :
    ((((100 : Int) + SCREEN_REFRESH_PERIOD_S < 100 ∨ true = true) ∧
       some (EPD.getbuffer smallImage) ≠ (none : Option (List Nat))) ∧
      (((10 : ℚ) - 0 > 3) ∧ ButtonSource.UP = ButtonSource.UP)) ∧
    (blink_call_result 1 = some PyErr.typeError ∧
    source_blink_ok = false ∧
    (refresh_tick ⟨100, fun _ => smallImage, none, none,
        source_blink_ok, none⟩
        ⟨true, views_list, "HOME", none, none, 100⟩).2.2 = some .typeError ∧
    (refresh_tick ⟨100, fun _ => smallImage, none, none,
        source_blink_ok, none⟩
        ⟨true, views_list, "HOME", none, none, 100⟩).2.1 = [] ∧
    (handler_step ⟨some false, source_blink_ok⟩ ⟨0, views_list, false, false⟩
        ⟨.UP, 10⟩).2.2 = some .typeError ∧
    (refresh_leds_iter true .powered source_blink_ok (some false)).2 =
      some .typeError) :=
  ⟨⟨⟨Or.inr rfl, by simp⟩, ⟨by norm_num, rfl⟩⟩,
   C10_blink_arity
     ⟨100, fun _ => smallImage, none, none, source_blink_ok, none⟩
     ⟨true, views_list, "HOME", none, none, 100⟩
     ⟨some false, source_blink_ok⟩ ⟨0, views_list, false, false⟩ ⟨.UP, 10⟩
     true .powered
     (Or.inr rfl) (by simp) rfl rfl rfl rfl rfl (by norm_num) rfl⟩

end mapio
